import Mathlib

/-!
Verification of the portfolio backend storage layer.

The development shallowly embeds the persistent data model
(`shared/schema.ts`) and the storage operations of
`server/storage.ts`: the credential store (`hashPassword`,
`verifyPassword`, `createUser`, `verifyUser`, `updateUserPassword`),
the visitor repository (`createVisitor`, `getVisitorByIp`,
`updateVisitor`), the statistics engine (`getVisitorStats`) and the
registration route handler.

Modelling conventions:
* The database is a pure value: a list of rows plus the next serial id.
  A drizzle `select ... where eq` that destructures `[row]` becomes
  `(rows.filter p).head?`; an `update ... where eq` becomes a `List.map`
  that rewrites every row matching the key.
* Timestamps are natural numbers (seconds); `new Date()` / `defaultNow()`
  become an explicit `now` argument.
* Node's `crypto.pbkdf2Sync(password, salt, 1000, 64, sha512).toString(hex)`
  is an external primitive: it is an explicit function argument
  `pbkdf2 : String → String → String` of every credential operation.
  Likewise `generateSalt` (`crypto.randomBytes`) is modelled by passing
  the produced salt as an explicit argument.
* Nullable SQL columns are `Option` valued.  A field of the zod-derived
  `InsertVisitor` type (all nine descriptive fields, each optional and
  nullable) is `Option (Option String)`: the outer `none` is an absent
  key (drizzle skips it in `.set`, the column default applies in
  `.values`), `some none` is an explicit SQL `NULL`.
* JavaScript truthiness on strings (`!username`, `item.country || "Unknown"`)
  is `= ""` on `String`.
-/

namespace PortfolioStorage

/-! ## Data model (`shared/schema.ts`) -/

/-- The `users` table row: serial id, unique username and email, password
hash, per-user salt, role (default `"user"`), active flag (default true),
creation timestamp, nullable last-login timestamp. -/
structure User where
  id : Nat
  username : String
  email : String
  password : String
  salt : String
  role : String
  isActive : Bool
  createdAt : Nat
  lastLogin : Option Nat
  deriving DecidableEq

/-- The `visitors` table row.  The nine descriptive columns are nullable;
`isUnique` defaults to true and `visitCount` to 1 (both columns are
nullable, having no `.notNull()`); `lastVisit` and `firstVisit` default to
now and are not null. -/
structure Visitor where
  id : Nat
  ipAddress : Option String
  userAgent : Option String
  referrer : Option String
  language : Option String
  country : Option String
  city : Option String
  device : Option String
  browser : Option String
  os : Option String
  isUnique : Option Bool
  visitCount : Option Int
  lastVisit : Nat
  firstVisit : Nat
  deriving DecidableEq

/-- The zod `insertVisitorSchema` payload: `createInsertSchema(visitors)`
picks exactly the nine descriptive fields and `.partial()` makes each
optional.  `id`, `isUnique`, `visitCount`, `lastVisit` and `firstVisit`
are not present in this type, so no caller of `createVisitor` or
`updateVisitor` can supply them. -/
structure InsertVisitor where
  ipAddress : Option (Option String) := none
  userAgent : Option (Option String) := none
  referrer : Option (Option String) := none
  language : Option (Option String) := none
  country : Option (Option String) := none
  city : Option (Option String) := none
  device : Option (Option String) := none
  browser : Option (Option String) := none
  os : Option (Option String) := none
  deriving DecidableEq

/-- The login payload validated by `loginUserSchema`. -/
structure LoginUser where
  username : String
  password : String
  deriving DecidableEq

/-- The argument record of `createUser` (`role` optional). -/
structure CreateUserData where
  username : String
  email : String
  password : String
  role : Option String := none
  deriving DecidableEq

/-- The `users` table with its serial-id counter. -/
structure UserDB where
  users : List User
  nextId : Nat
  deriving DecidableEq

/-- The `visitors` table with its serial-id counter. -/
structure VisitorDB where
  visitors : List Visitor
  nextId : Nat
  deriving DecidableEq

/-! ## Credential store (`server/storage.ts`, lines 13–22) -/

/-- `hashPassword(password, salt)`: the hex-encoded
`crypto.pbkdf2Sync(password, salt, 1000, 64, sha512)` digest, with the
external crypto primitive passed in as `pbkdf2`. -/
def hashPassword (pbkdf2 : String → String → String) (password salt : String) : String :=
  pbkdf2 password salt

/-- `verifyPassword(password, salt, storedHash)`: recomputes the hash and
compares it to the stored hash for exact equality. -/
def verifyPassword (pbkdf2 : String → String → String)
    (password salt storedHash : String) : Bool :=
  decide (hashPassword pbkdf2 password salt = storedHash)

/-! ## User repository (`server/storage.ts`, lines 59–149) -/

/-- `getUser(id)`: `select ... where eq(users.id, id)`, first row or
`undefined`. -/
def getUser (i : Nat) (db : UserDB) : Option User :=
  (db.users.filter (fun u => decide (u.id = i))).head?

/-- `getUserByUsername(username)`: first row with that username. -/
def getUserByUsername (username : String) (db : UserDB) : Option User :=
  (db.users.filter (fun u => decide (u.username = username))).head?

/-- `getUserByEmail(email)`: first row with that email. -/
def getUserByEmail (email : String) (db : UserDB) : Option User :=
  (db.users.filter (fun u => decide (u.email = email))).head?

/-- `createUser(userData)`: generates a salt (here passed in), hashes the
password, and inserts the row; `role` falls back to `"user"` when absent
or falsy, and `isActive`, `createdAt`, `lastLogin` take their column
defaults.  Returns the inserted row. -/
def createUser (pbkdf2 : String → String → String) (salt : String)
    (userData : CreateUserData) (now : Nat) (db : UserDB) : UserDB × User :=
  let u : User :=
    { id := db.nextId
      username := userData.username
      email := userData.email
      password := hashPassword pbkdf2 userData.password salt
      salt := salt
      role := match userData.role with
              | some r => if r = "" then "user" else r
              | none => "user"
      isActive := true
      createdAt := now
      lastLogin := none }
  (⟨db.users ++ [u], db.nextId + 1⟩, u)

/-- `verifyUser(loginData)`: looks the user up by username; returns `null`
when the user is absent or inactive, otherwise returns the user exactly
when the password verifies. -/
def verifyUser (pbkdf2 : String → String → String)
    (loginData : LoginUser) (db : UserDB) : Option User :=
  match getUserByUsername loginData.username db with
  | none => none
  | some user =>
    if !user.isActive then none
    else if verifyPassword pbkdf2 loginData.password user.salt user.password
    then some user
    else none

/-- `updateUserPassword(userId, newPassword)`: returns `false` when the
user does not exist; otherwise generates a new salt (passed in), rehashes,
overwrites the password and salt of every row with that id, and returns
`true`. -/
def updateUserPassword (pbkdf2 : String → String → String) (salt : String)
    (userId : Nat) (newPassword : String) (db : UserDB) : UserDB × Bool :=
  match getUser userId db with
  | none => (db, false)
  | some _ =>
    (⟨db.users.map (fun u =>
        if u.id = userId then
          { u with password := hashPassword pbkdf2 newPassword salt
                   salt := salt }
        else u),
      db.nextId⟩, true)

/-! ## Visitor repository (`server/storage.ts`, lines 169–210) -/

/-- `createVisitor(insertVisitor)`: inserts one row; every descriptive
field collapses absent and explicit `NULL` to the column value, and the
columns absent from `InsertVisitor` take their defaults: `isUnique = true`,
`visitCount = 1`, `lastVisit = firstVisit = now`.  Returns the inserted
row. -/
def createVisitor (insertVisitor : InsertVisitor) (now : Nat)
    (db : VisitorDB) : VisitorDB × Visitor :=
  let v : Visitor :=
    { id := db.nextId
      ipAddress := insertVisitor.ipAddress.join
      userAgent := insertVisitor.userAgent.join
      referrer := insertVisitor.referrer.join
      language := insertVisitor.language.join
      country := insertVisitor.country.join
      city := insertVisitor.city.join
      device := insertVisitor.device.join
      browser := insertVisitor.browser.join
      os := insertVisitor.os.join
      isUnique := some true
      visitCount := some 1
      lastVisit := now
      firstVisit := now }
  (⟨db.visitors ++ [v], db.nextId + 1⟩, v)

/-- `getVisitorByIp(ipAddress)`: first row whose `ipAddress` equals the
given (non-null) address. -/
def getVisitorByIp (ipAddress : String) (db : VisitorDB) : Option Visitor :=
  (db.visitors.filter (fun v => decide (v.ipAddress = some ipAddress))).head?

/-- The row-level effect of `updateVisitor`'s `.set` clause: the spread
`...visitorData` overwrites exactly the supplied descriptive fields,
`lastVisit` becomes now, and `visitCount` becomes the SQL expression
`visit_count + 1` (`NULL` propagates).  `id`, `isUnique` and `firstVisit`
do not appear in the clause and keep their values. -/
def updateVisitorRow (visitorData : InsertVisitor) (now : Nat) (v : Visitor) : Visitor :=
  { id := v.id
    ipAddress := visitorData.ipAddress.getD v.ipAddress
    userAgent := visitorData.userAgent.getD v.userAgent
    referrer := visitorData.referrer.getD v.referrer
    language := visitorData.language.getD v.language
    country := visitorData.country.getD v.country
    city := visitorData.city.getD v.city
    device := visitorData.device.getD v.device
    browser := visitorData.browser.getD v.browser
    os := visitorData.os.getD v.os
    isUnique := v.isUnique
    visitCount := v.visitCount.map (fun c => c + 1)
    lastVisit := now
    firstVisit := v.firstVisit }

/-- `updateVisitor(id, visitorData)`: `update ... where eq(visitors.id, id)`
rewrites every row with that id through `updateVisitorRow`. -/
def updateVisitor (i : Nat) (visitorData : InsertVisitor) (now : Nat)
    (db : VisitorDB) : VisitorDB :=
  ⟨db.visitors.map (fun v => if v.id = i then updateVisitorRow visitorData now v else v),
   db.nextId⟩

/-- Modelled from the spec: the `RecordVisit(observation)` dispatch — the
visit-recording caller of the storage layer is not part of the repository
source, only `storage.ts` is.  Per §4.2: look up the existing visitor by
the observation's IP; when the IP is absent or no row is found, insert a
new visitor (`createVisitor`); when a row is found, update it
(`updateVisitor`). -/
def RecordVisit (observation : InsertVisitor) (now : Nat) (db : VisitorDB) : VisitorDB :=
  match observation.ipAddress.join with
  | none => (createVisitor observation now db).1
  | some ip =>
    match getVisitorByIp ip db with
    | none => (createVisitor observation now db).1
    | some v => updateVisitor v.id observation now db

/-! ## Statistics engine (`server/storage.ts`, lines 212–326) -/

/-- The `ORDER BY count(*) DESC` relation on group rows. -/
def countGE (a b : String × Nat) : Prop := b.2 ≤ a.2

instance : DecidableRel countGE := fun a b => inferInstanceAs (Decidable (b.2 ≤ a.2))

instance : IsTotal (String × Nat) countGE := ⟨fun a b => Nat.le_total b.2 a.2⟩

instance : IsTrans (String × Nat) countGE := ⟨fun _ _ _ h h₂ => Nat.le_trans h₂ h⟩

/-- JavaScript `key || "Unknown"` on a non-null string key: the empty
string is the only falsy string. -/
def orUnknown (s : String) : String := if s = "" then "Unknown" else s

/-- One group-by breakdown of `getVisitorStats`: rows whose key column
`IS NOT NULL`, grouped by the key, with per-group `count(*)`, ordered by
count descending, limited to 10, and finally mapped through
`item.key || "Unknown"`. -/
def groupTopTen (key : Visitor → Option String) (rows : List Visitor) :
    List (String × Nat) :=
  ((List.insertionSort countGE
      ((rows.filterMap key).dedup.map
        (fun k => (k, rows.countP (fun r => decide (key r = some k)))))).take 10).map
    (fun p => (orUnknown p.1, p.2))

/-- The record returned by `getVisitorStats`. -/
structure VisitorStats where
  totalVisitors : Nat
  uniqueVisitors : Nat
  todayVisitors : Nat
  lastWeekVisitors : Nat
  visitorsByCountry : List (String × Nat)
  visitorsByDevice : List (String × Nat)
  visitorsByBrowser : List (String × Nat)
  visitorsByOs : List (String × Nat)
  deriving DecidableEq

/-- `getVisitorStats()`: total row count; count of rows with
`isUnique = true` (SQL `eq` does not match `NULL`); count of rows whose
`lastVisit` falls on the current day; count of rows with
`lastVisit ≥ now − 7 days`; and the four group-by breakdowns. -/
def getVisitorStats (now : Nat) (db : VisitorDB) : VisitorStats :=
  { totalVisitors := db.visitors.length
    uniqueVisitors := db.visitors.countP (fun r => decide (r.isUnique = some true))
    todayVisitors := db.visitors.countP (fun r => decide (r.lastVisit / 86400 = now / 86400))
    lastWeekVisitors := db.visitors.countP (fun r => decide (now ≤ r.lastVisit + 604800))
    visitorsByCountry := groupTopTen (fun r => r.country) db.visitors
    visitorsByDevice := groupTopTen (fun r => r.device) db.visitors
    visitorsByBrowser := groupTopTen (fun r => r.browser) db.visitors
    visitorsByOs := groupTopTen (fun r => r.os) db.visitors }

/-! ## Registration route (`POST /api/auth/register`) -/

/-- The request body of the registration route. -/
structure RegisterBody where
  username : String
  email : String
  password : String
  deriving DecidableEq

/-- The `{status, success, message}` shape of the route's JSON replies. -/
structure ApiResponse where
  status : Nat
  success : Bool
  message : String
  deriving DecidableEq

/-- The registration handler: reject with a validation message when any
field is missing (falsy); reject with a distinct conflict message when the
username, then the email, is already taken; otherwise create the user and
reply 201. -/
def registerHandler (pbkdf2 : String → String → String) (salt : String)
    (now : Nat) (body : RegisterBody) (db : UserDB) : ApiResponse × UserDB :=
  if body.username = "" ∨ body.email = "" ∨ body.password = "" then
    (⟨400, false, "Username, email, dan password harus diisi"⟩, db)
  else if (getUserByUsername body.username db).isSome then
    (⟨400, false, "Username sudah digunakan"⟩, db)
  else if (getUserByEmail body.email db).isSome then
    (⟨400, false, "Email sudah digunakan"⟩, db)
  else
    let r := createUser pbkdf2 salt ⟨body.username, body.email, body.password, none⟩ now db
    (⟨201, true, "Registrasi berhasil"⟩, r.1)

/-! ## Claim theorems -/

/-- C7: for every (password, salt) pair, `hashPassword` is a pure
deterministic function, and `verifyPassword password salt storedHash`
returns true iff `storedHash` equals the hash produced by `hashPassword`
from that password and salt; in particular the round trip
`verifyPassword p s (hashPassword p s)` is true. -/
theorem C7_hashPassword_deterministic_verifyPassword_iff
    (pbkdf2 : String → String → String) (p s stored : String) :
    hashPassword pbkdf2 p s = hashPassword pbkdf2 p s ∧
    (verifyPassword pbkdf2 p s stored = true ↔ stored = hashPassword pbkdf2 p s) ∧
    verifyPassword pbkdf2 p s (hashPassword pbkdf2 p s) = true := by
  refine ⟨rfl, ?_, ?_⟩
  · simp only [verifyPassword, decide_eq_true_eq]
    exact eq_comm
  · simp [verifyPassword]

/-- C5: `verifyUser` returns the user exactly when the user is found by
username, is active, and the password verifies; it returns `null` (not an
error) when the user is absent, and also when the user is inactive,
regardless of the password. -/
theorem C5_verifyUser_null_on_absent_inactive_or_mismatch
    (pbkdf2 : String → String → String) (db : UserDB) (loginData : LoginUser) :
    (∀ u : User,
      verifyUser pbkdf2 loginData db = some u ↔
        (getUserByUsername loginData.username db = some u ∧ u.isActive = true ∧
         verifyPassword pbkdf2 loginData.password u.salt u.password = true)) ∧
    (getUserByUsername loginData.username db = none →
      verifyUser pbkdf2 loginData db = none) ∧
    (∀ u : User, getUserByUsername loginData.username db = some u →
      u.isActive = false → verifyUser pbkdf2 loginData db = none) := by
  refine ⟨fun w => ?_, fun hnone => ?_, fun w hw hact => ?_⟩
  · unfold verifyUser
    cases h : getUserByUsername loginData.username db with
    | none => simp
    | some u =>
      cases hact : u.isActive with
      | false =>
        simp only [hact, Bool.not_false, if_true]
        constructor
        · intro hc
          cases hc
        · rintro ⟨hu, hA, -⟩
          cases hu
          rw [hact] at hA
          cases hA
      | true =>
        cases hverify : verifyPassword pbkdf2 loginData.password u.salt u.password with
        | false =>
          simp only [hact, Bool.not_true, Bool.false_eq_true, if_false, hverify, if_true]
          constructor
          · intro hc
            cases hc
          · rintro ⟨hu, -, hv⟩
            cases hu
            rw [hverify] at hv
            cases hv
        | true =>
          simp only [hact, Bool.not_true, Bool.false_eq_true, if_false, hverify, if_true]
          constructor
          · rintro hc
            cases hc
            exact ⟨rfl, hact, hverify⟩
          · rintro ⟨hu, -, -⟩
            cases hu
            rfl
  · unfold verifyUser
    rw [hnone]
  · unfold verifyUser
    rw [hw]
    simp [hact]

/-- C5 witness: an inactive account is rejected even though the stored
hash matches the supplied password under the identity-style `pbkdf2`. -/
theorem C5_verifyUser_null_witness :
    getUserByUsername "bob"
        ⟨[⟨1, "bob", "bob@x.com", "pw", "s", "user", false, 0, none⟩], 2⟩ =
      some ⟨1, "bob", "bob@x.com", "pw", "s", "user", false, 0, none⟩ ∧
    verifyUser (fun p _ => p) ⟨"bob", "pw"⟩
        ⟨[⟨1, "bob", "bob@x.com", "pw", "s", "user", false, 0, none⟩], 2⟩ = none :=
  ⟨by decide,
   (C5_verifyUser_null_on_absent_inactive_or_mismatch (fun p _ => p)
      ⟨[⟨1, "bob", "bob@x.com", "pw", "s", "user", false, 0, none⟩], 2⟩
      ⟨"bob", "pw"⟩).2.2
    ⟨1, "bob", "bob@x.com", "pw", "s", "user", false, 0, none⟩ (by decide) rfl⟩

/-- C2: when the observation's IP has no existing row (or is absent),
`RecordVisit` takes the `createVisitor` path: it appends exactly one new
row with `isUnique = true`, `visitCount = 1`, `firstVisit = lastVisit = now`,
the descriptive fields taken from the observation (absent and explicit
null both stored as NULL), and the row count grows by exactly one. -/
theorem C2_recordVisit_new_ip_creates
    (observation : InsertVisitor) (now : Nat) (db : VisitorDB)
    (hnew : ∀ ip, observation.ipAddress.join = some ip → getVisitorByIp ip db = none) :
    RecordVisit observation now db = (createVisitor observation now db).1 ∧
    (createVisitor observation now db).1.visitors
      = db.visitors ++ [(createVisitor observation now db).2] ∧
    (createVisitor observation now db).1.visitors.length = db.visitors.length + 1 ∧
    (createVisitor observation now db).2.isUnique = some true ∧
    (createVisitor observation now db).2.visitCount = some 1 ∧
    (createVisitor observation now db).2.firstVisit = now ∧
    (createVisitor observation now db).2.lastVisit = now ∧
    (createVisitor observation now db).2.ipAddress = observation.ipAddress.join ∧
    (createVisitor observation now db).2.userAgent = observation.userAgent.join ∧
    (createVisitor observation now db).2.referrer = observation.referrer.join ∧
    (createVisitor observation now db).2.language = observation.language.join ∧
    (createVisitor observation now db).2.country = observation.country.join ∧
    (createVisitor observation now db).2.city = observation.city.join ∧
    (createVisitor observation now db).2.device = observation.device.join ∧
    (createVisitor observation now db).2.browser = observation.browser.join ∧
    (createVisitor observation now db).2.os = observation.os.join := by
  refine ⟨?_, rfl, by simp [createVisitor], rfl, rfl, rfl, rfl, rfl, rfl,
          rfl, rfl, rfl, rfl, rfl, rfl, rfl⟩
  cases hj : observation.ipAddress.join with
  | none => simp only [RecordVisit, hj]
  | some ip => simp only [RecordVisit, hj, hnew ip hj]

/-- C2 witness: a first-ever visit from a fresh IP on the empty table. -/
theorem C2_recordVisit_new_ip_creates_witness :
    RecordVisit { ipAddress := some (some "9.9.9.9") } 7 ⟨[], 0⟩ =
      (createVisitor { ipAddress := some (some "9.9.9.9") } 7 ⟨[], 0⟩).1 :=
  (C2_recordVisit_new_ip_creates { ipAddress := some (some "9.9.9.9") } 7 ⟨[], 0⟩
    (fun _ _ => rfl)).1

/-- C8: `updateUserPassword` returns false (not an error) when no user
with the id exists and leaves the store unchanged; otherwise it returns
true and every row with that id now carries the hash of the new password
under the freshly generated salt, and that salt. -/
theorem C8_updateUserPassword_spec
    (pbkdf2 : String → String → String) (salt : String) (userId : Nat)
    (newPassword : String) (db : UserDB) :
    (getUser userId db = none →
      updateUserPassword pbkdf2 salt userId newPassword db = (db, false)) ∧
    (∀ u : User, getUser userId db = some u →
      (updateUserPassword pbkdf2 salt userId newPassword db).2 = true ∧
      ∀ v ∈ (updateUserPassword pbkdf2 salt userId newPassword db).1.users,
        v.id = userId →
          v.password = hashPassword pbkdf2 newPassword salt ∧ v.salt = salt) := by
  constructor
  · intro h
    unfold updateUserPassword
    rw [h]
  · intro u hu
    unfold updateUserPassword
    rw [hu]
    refine ⟨rfl, ?_⟩
    intro v hv hvid
    simp only [List.mem_map] at hv
    obtain ⟨w, hw, hfw⟩ := hv
    by_cases hwid : w.id = userId
    · rw [if_pos hwid] at hfw
      cases hfw
      exact ⟨rfl, rfl⟩
    · rw [if_neg hwid] at hfw
      cases hfw
      exact absurd hvid hwid

/-- C8 witness: a password update for a missing id on the empty store
returns false and changes nothing. -/
theorem C8_updateUserPassword_spec_witness :
    getUser 1 ⟨[], 0⟩ = none ∧
    updateUserPassword (fun p _ => p) "s2" 1 "newpw" ⟨[], 0⟩ = (⟨[], 0⟩, false) :=
  ⟨rfl, (C8_updateUserPassword_spec (fun p _ => p) "s2" 1 "newpw" ⟨[], 0⟩).1 rfl⟩

/-- C4: on a visitor table of `N` rows of which `K` have `isUnique = true`,
`getVisitorStats` returns `totalVisitors = N` and `uniqueVisitors = K`
exactly. -/
theorem C4_getVisitorStats_totals
    (now : Nat) (db : VisitorDB) (N K : Nat)
    (hN : db.visitors.length = N)
    (hK : db.visitors.countP (fun r => decide (r.isUnique = some true)) = K) :
    (getVisitorStats now db).totalVisitors = N ∧
    (getVisitorStats now db).uniqueVisitors = K := by
  exact ⟨hN, hK⟩

/-- C4 witness: a concrete table of two rows, one marked unique. -/
theorem C4_getVisitorStats_totals_witness :
    (([⟨0, none, none, none, none, none, none, none, none, none,
        some true, some 1, 0, 0⟩,
       ⟨1, none, none, none, none, none, none, none, none, none,
        some false, some 1, 0, 0⟩] : List Visitor).length = 2) ∧
    (getVisitorStats 0
      ⟨[⟨0, none, none, none, none, none, none, none, none, none,
         some true, some 1, 0, 0⟩,
        ⟨1, none, none, none, none, none, none, none, none, none,
         some false, some 1, 0, 0⟩], 2⟩).totalVisitors = 2 ∧
    (getVisitorStats 0
      ⟨[⟨0, none, none, none, none, none, none, none, none, none,
         some true, some 1, 0, 0⟩,
        ⟨1, none, none, none, none, none, none, none, none, none,
         some false, some 1, 0, 0⟩], 2⟩).uniqueVisitors = 1 := by
  refine ⟨by decide, ?_⟩
  exact C4_getVisitorStats_totals 0
    ⟨[⟨0, none, none, none, none, none, none, none, none, none,
       some true, some 1, 0, 0⟩,
      ⟨1, none, none, none, none, none, none, none, none, none,
       some false, some 1, 0, 0⟩], 2⟩ 2 1 (by decide) (by decide)

/-- C6: creating a user and then verifying with the same username and the
same plaintext password succeeds with that user (new users are active by
default), while verifying with a password whose hash differs fails with
`null`. -/
theorem C6_createUser_then_verifyUser
    (pbkdf2 : String → String → String) (salt : String)
    (userData : CreateUserData) (now : Nat) (db : UserDB)
    (hfresh : getUserByUsername userData.username db = none)
    (wrongPassword : String)
    (hneq : hashPassword pbkdf2 wrongPassword salt ≠
            hashPassword pbkdf2 userData.password salt) :
    verifyUser pbkdf2 ⟨userData.username, userData.password⟩
        (createUser pbkdf2 salt userData now db).1 =
      some (createUser pbkdf2 salt userData now db).2 ∧
    verifyUser pbkdf2 ⟨userData.username, wrongPassword⟩
        (createUser pbkdf2 salt userData now db).1 = none := by
  have hnil : db.users.filter (fun u => decide (u.username = userData.username)) = [] := by
    unfold getUserByUsername at hfresh
    exact List.head?_eq_none_iff.mp hfresh
  have hlookup : getUserByUsername userData.username
      (createUser pbkdf2 salt userData now db).1 =
      some (createUser pbkdf2 salt userData now db).2 := by
    unfold getUserByUsername createUser
    simp [List.filter_append, hnil]
  constructor
  · unfold verifyUser
    rw [hlookup]
    simp [createUser, verifyPassword]
  · unfold verifyUser
    rw [hlookup]
    simp only [createUser, verifyPassword]
    simp [hneq]

/-- C6 witness: a concrete creation followed by the matching and a
mismatching verification, under an injective stand-in for the external
pbkdf2 primitive. -/
theorem C6_createUser_then_verifyUser_witness :
    getUserByUsername "alice" (⟨[], 0⟩ : UserDB) = none ∧
    hashPassword (fun p s => p ++ ":" ++ s) "wrong" "s0" ≠
      hashPassword (fun p s => p ++ ":" ++ s) "secret1" "s0" ∧
    verifyUser (fun p s => p ++ ":" ++ s) ⟨"alice", "secret1"⟩
        (createUser (fun p s => p ++ ":" ++ s) "s0"
          ⟨"alice", "alice@x.com", "secret1", none⟩ 0 ⟨[], 0⟩).1 =
      some (createUser (fun p s => p ++ ":" ++ s) "s0"
          ⟨"alice", "alice@x.com", "secret1", none⟩ 0 ⟨[], 0⟩).2 ∧
    verifyUser (fun p s => p ++ ":" ++ s) ⟨"alice", "wrong"⟩
        (createUser (fun p s => p ++ ":" ++ s) "s0"
          ⟨"alice", "alice@x.com", "secret1", none⟩ 0 ⟨[], 0⟩).1 = none := by
  refine ⟨rfl, by decide, ?_⟩
  exact C6_createUser_then_verifyUser (fun p s => p ++ ":" ++ s) "s0"
    ⟨"alice", "alice@x.com", "secret1", none⟩ 0 ⟨[], 0⟩ rfl "wrong" (by decide)

/-- C9: at registration, a duplicate username is reported with the
conflict message, which is distinguishable from the validation
(missing-input) response: registering and then re-registering the same
username yields the conflict reply, not the validation reply. -/
theorem C9_register_duplicate_username_conflict
    (pbkdf2 : String → String → String) (s1 s2 : String) (n1 n2 : Nat)
    (body : RegisterBody) (db : UserDB)
    (hu : body.username ≠ "") (he : body.email ≠ "") (hp : body.password ≠ "")
    (hfreshU : getUserByUsername body.username db = none)
    (hfreshE : getUserByEmail body.email db = none) :
    (registerHandler pbkdf2 s1 n1 body db).1.status = 201 ∧
    (registerHandler pbkdf2 s2 n2 body
        (registerHandler pbkdf2 s1 n1 body db).2).1 =
      ⟨400, false, "Username sudah digunakan"⟩ ∧
    (⟨400, false, "Username sudah digunakan"⟩ : ApiResponse) ≠
      ⟨400, false, "Username, email, dan password harus diisi"⟩ := by
  have hval : ¬ (body.username = "" ∨ body.email = "" ∨ body.password = "") := by
    rintro (h | h | h)
    · exact hu h
    · exact he h
    · exact hp h
  have hfirst : registerHandler pbkdf2 s1 n1 body db =
      (⟨201, true, "Registrasi berhasil"⟩,
       (createUser pbkdf2 s1 ⟨body.username, body.email, body.password, none⟩ n1 db).1) := by
    unfold registerHandler
    rw [if_neg hval, hfreshU, hfreshE]
    rfl
  have hnil : db.users.filter (fun u => decide (u.username = body.username)) = [] := by
    unfold getUserByUsername at hfreshU
    exact List.head?_eq_none_iff.mp hfreshU
  have hdup : getUserByUsername body.username
      (createUser pbkdf2 s1 ⟨body.username, body.email, body.password, none⟩ n1 db).1 =
      some (createUser pbkdf2 s1 ⟨body.username, body.email, body.password, none⟩ n1 db).2 := by
    unfold getUserByUsername createUser
    simp [List.filter_append, hnil]
  refine ⟨by rw [hfirst], ?_, by decide⟩
  rw [hfirst]
  unfold registerHandler
  rw [if_neg hval, hdup]
  rfl

/-- C9 witness: registering alice on the empty store and then attempting
the same username again. -/
theorem C9_register_duplicate_username_conflict_witness :
    (registerHandler (fun p s => p ++ ":" ++ s) "s0" 0
        ⟨"alice", "alice@x.com", "secret1"⟩ ⟨[], 0⟩).1.status = 201 ∧
    (registerHandler (fun p s => p ++ ":" ++ s) "s1" 1
        ⟨"alice", "alice@x.com", "secret1"⟩
        (registerHandler (fun p s => p ++ ":" ++ s) "s0" 0
          ⟨"alice", "alice@x.com", "secret1"⟩ ⟨[], 0⟩).2).1 =
      ⟨400, false, "Username sudah digunakan"⟩ ∧
    (⟨400, false, "Username sudah digunakan"⟩ : ApiResponse) ≠
      ⟨400, false, "Username, email, dan password harus diisi"⟩ :=
  C9_register_duplicate_username_conflict (fun p s => p ++ ":" ++ s) "s0" "s1" 0 1
    ⟨"alice", "alice@x.com", "secret1"⟩ ⟨[], 0⟩
    (by decide) (by decide) (by decide) rfl rfl

/-- Folding any sequence of `updateVisitorRow` applications onto a row
adds the number of applications to a definite visit count and never
touches the uniqueness flag. -/
theorem foldl_updateVisitorRow_count (updates : List (InsertVisitor × Nat)) :
    ∀ (v : Visitor) (k : Int), v.visitCount = some k →
      (updates.foldl (fun w u => updateVisitorRow u.1 u.2 w) v).visitCount
        = some (k + updates.length) ∧
      (updates.foldl (fun w u => updateVisitorRow u.1 u.2 w) v).isUnique
        = v.isUnique := by
  induction updates with
  | nil =>
    intro v k hk
    simpa using hk
  | cons u us ih =>
    intro v k hk
    have hstep : (updateVisitorRow u.1 u.2 v).visitCount = some (k + 1) := by
      simp [updateVisitorRow, hk]
    obtain ⟨h1, h2⟩ := ih (updateVisitorRow u.1 u.2 v) (k + 1) hstep
    refine ⟨?_, ?_⟩
    · rw [List.foldl_cons, h1]
      congr 1
      push_cast [List.length_cons]
      ring
    · rw [List.foldl_cons, h2]
      simp [updateVisitorRow]

/-- C10: `updateVisitor` cannot modify a row's `id`, `isUnique` or
`firstVisit` — its `Partial InsertVisitor` argument admits only the nine
descriptive fields — and a row produced by `createVisitor` and then any
sequence of `updateVisitor` row updates keeps `isUnique = true` and has
`visitCount` equal to 1 plus the number of updates applied to it. -/
theorem C10_updateVisitor_preserves_identity_and_counts
    (i : Nat) (visitorData : InsertVisitor) (now : Nat) (db : VisitorDB)
    (seed : InsertVisitor) (t : Nat) (db₀ : VisitorDB)
    (updates : List (InsertVisitor × Nat)) :
    (updateVisitor i visitorData now db).visitors.map
        (fun v => (v.id, v.isUnique, v.firstVisit))
      = db.visitors.map (fun v => (v.id, v.isUnique, v.firstVisit)) ∧
    (updates.foldl (fun w u => updateVisitorRow u.1 u.2 w)
        (createVisitor seed t db₀).2).visitCount = some (1 + updates.length) ∧
    (updates.foldl (fun w u => updateVisitorRow u.1 u.2 w)
        (createVisitor seed t db₀).2).isUnique = some true := by
  refine ⟨?_, ?_, ?_⟩
  · unfold updateVisitor
    rw [List.map_map]
    apply List.map_congr_left
    intro v _
    by_cases h : v.id = i <;> simp [h, updateVisitorRow]
  · exact (foldl_updateVisitorRow_count updates (createVisitor seed t db₀).2 1 rfl).1
  · exact (foldl_updateVisitorRow_count updates (createVisitor seed t db₀).2 1 rfl).2

/-- The first row matching a filter belongs to the list and satisfies the
filter. -/
theorem mem_and_pred_of_filter_head? {p : Visitor → Bool} {l : List Visitor}
    {r : Visitor} (h : (l.filter p).head? = some r) : r ∈ l ∧ p r = true := by
  have hmem : r ∈ l.filter p := List.mem_of_mem_head? (by simp [h])
  exact ⟨(List.mem_filter.mp hmem).1, (List.mem_filter.mp hmem).2⟩

/-- Rewriting exactly the rows carrying the first filter match's id (ids
being duplicate-free) leaves the rewritten match as the first filter
match, provided the rewritten row still matches. -/
theorem filter_head?_map_update
    (p : Visitor → Bool) (visitorData : InsertVisitor) (now : Nat) :
    ∀ (l : List Visitor) (r : Visitor),
      (l.map (fun v => v.id)).Nodup →
      (l.filter p).head? = some r →
      p (updateVisitorRow visitorData now r) = true →
      ((l.map (fun v => if v.id = r.id then updateVisitorRow visitorData now v else v)).filter
          p).head?
        = some (updateVisitorRow visitorData now r) := by
  intro l
  induction l with
  | nil =>
    intro r _ h _
    simp at h
  | cons v t ih =>
    intro r hn h hp
    rw [List.map_cons, List.nodup_cons] at hn
    obtain ⟨hvnot, hnt⟩ := hn
    by_cases hv : p v = true
    · rw [List.filter_cons_of_pos hv] at h
      have hr : v = r := by simpa using h
      subst hr
      rw [List.map_cons, if_pos rfl, List.filter_cons_of_pos hp]
      rfl
    · rw [List.filter_cons_of_neg hv] at h
      have hrt : r ∈ t := (mem_and_pred_of_filter_head? h).1
      have hvr : v.id ≠ r.id := by
        intro he
        exact hvnot (he ▸ List.mem_map_of_mem (fun w => w.id) hrt)
      rw [List.map_cons, if_neg hvr, List.filter_cons_of_neg hv]
      exact ih r hnt h hp

/-- The targeted row rewrite of `updateVisitor` keeps the id column of the
table unchanged. -/
theorem map_id_updateVisitor (i : Nat) (visitorData : InsertVisitor) (now : Nat)
    (l : List Visitor) :
    (l.map (fun v => if v.id = i then updateVisitorRow visitorData now v else v)).map
        (fun v => v.id)
      = l.map (fun v => v.id) := by
  rw [List.map_map]
  apply List.map_congr_left
  intro v _
  by_cases h : v.id = i <;> simp [h, updateVisitorRow]

/-- C1: when `getVisitorByIp` finds an existing row for the observed IP,
`RecordVisit` takes the `updateVisitor` path: no new row is created, that
row's `visitCount` is incremented by exactly 1, its `lastVisit` is set to
now, and `isUnique` is unchanged; calling `RecordVisit` twice with the
same IP leaves the total row count unchanged and increments the row's
`visitCount` by 1 on each call. -/
theorem C1_recordVisit_repeat_updates_in_place
    (observation : InsertVisitor) (ip : String) (db : VisitorDB) (r : Visitor)
    (n1 n2 : Nat)
    (hids : (db.visitors.map (fun v => v.id)).Nodup)
    (hip : observation.ipAddress = some (some ip))
    (hfound : getVisitorByIp ip db = some r) :
    (RecordVisit observation n1 db).visitors.length = db.visitors.length ∧
    getVisitorByIp ip (RecordVisit observation n1 db)
      = some (updateVisitorRow observation n1 r) ∧
    (updateVisitorRow observation n1 r).visitCount
      = r.visitCount.map (fun c => c + 1) ∧
    (updateVisitorRow observation n1 r).lastVisit = n1 ∧
    (updateVisitorRow observation n1 r).isUnique = r.isUnique ∧
    (RecordVisit observation n2 (RecordVisit observation n1 db)).visitors.length
      = db.visitors.length ∧
    getVisitorByIp ip (RecordVisit observation n2 (RecordVisit observation n1 db))
      = some (updateVisitorRow observation n2 (updateVisitorRow observation n1 r)) ∧
    (updateVisitorRow observation n2 (updateVisitorRow observation n1 r)).visitCount
      = (updateVisitorRow observation n1 r).visitCount.map (fun c => c + 1) := by
  have hjoin : observation.ipAddress.join = some ip := by
    rw [hip]
    rfl
  have hrec1 : RecordVisit observation n1 db = updateVisitor r.id observation n1 db := by
    simp only [RecordVisit, hjoin, hfound]
  have hp1 : (fun v : Visitor => decide (v.ipAddress = some ip))
      (updateVisitorRow observation n1 r) = true := by
    simp [updateVisitorRow, hip]
  have hfoundF : (db.visitors.filter
      (fun v => decide (v.ipAddress = some ip))).head? = some r := hfound
  have hone : getVisitorByIp ip (updateVisitor r.id observation n1 db)
      = some (updateVisitorRow observation n1 r) := by
    unfold getVisitorByIp updateVisitor
    exact filter_head?_map_update _ observation n1 db.visitors r hids hfoundF hp1
  have hids1 : ((updateVisitor r.id observation n1 db).visitors.map
      (fun v => v.id)).Nodup := by
    unfold updateVisitor
    rw [map_id_updateVisitor]
    exact hids
  have hrec2 : RecordVisit observation n2 (updateVisitor r.id observation n1 db)
      = updateVisitor r.id observation n2 (updateVisitor r.id observation n1 db) := by
    simp only [RecordVisit, hjoin, hone]
    rfl
  have hp2 : (fun v : Visitor => decide (v.ipAddress = some ip))
      (updateVisitorRow observation n2 (updateVisitorRow observation n1 r)) = true := by
    simp [updateVisitorRow, hip]
  have honeF : ((updateVisitor r.id observation n1 db).visitors.filter
      (fun v => decide (v.ipAddress = some ip))).head?
      = some (updateVisitorRow observation n1 r) := hone
  have htwo : getVisitorByIp ip
      (updateVisitor r.id observation n2 (updateVisitor r.id observation n1 db))
      = some (updateVisitorRow observation n2 (updateVisitorRow observation n1 r)) := by
    unfold getVisitorByIp updateVisitor
    exact filter_head?_map_update _ observation n2
      (updateVisitor r.id observation n1 db).visitors
      (updateVisitorRow observation n1 r) hids1 honeF hp2
  refine ⟨?_, ?_, rfl, rfl, rfl, ?_, ?_, rfl⟩
  · rw [hrec1]
    simp [updateVisitor]
  · rw [hrec1]
    exact hone
  · rw [hrec1, hrec2]
    simp [updateVisitor]
  · rw [hrec1, hrec2]
    exact htwo

/-- C1 witness: a second and third visit from the one recorded IP on a
one-row table. -/
theorem C1_recordVisit_repeat_updates_in_place_witness :
    getVisitorByIp "1.2.3.4"
        (RecordVisit { ipAddress := some (some "1.2.3.4") } 5
          ⟨[⟨0, some "1.2.3.4", none, none, none, none, none, none, none, none,
             some true, some 1, 0, 0⟩], 1⟩)
      = some (updateVisitorRow { ipAddress := some (some "1.2.3.4") } 5
          ⟨0, some "1.2.3.4", none, none, none, none, none, none, none, none,
           some true, some 1, 0, 0⟩) :=
  (C1_recordVisit_repeat_updates_in_place { ipAddress := some (some "1.2.3.4") }
    "1.2.3.4"
    ⟨[⟨0, some "1.2.3.4", none, none, none, none, none, none, none, none,
       some true, some 1, 0, 0⟩], 1⟩
    ⟨0, some "1.2.3.4", none, none, none, none, none, none, none, none,
     some true, some 1, 0, 0⟩ 5 6 (by decide) rfl (by decide)).2.1

/-- Every group-by breakdown is at most ten entries, sorted descending by
count, and every returned key is either the raw non-null key of some row
or the label `"Unknown"` substituted for the empty-string key by the
`item.key || "Unknown"` map inside `getVisitorStats`. -/
theorem groupTopTen_spec (key : Visitor → Option String) (rows : List Visitor) :
    (groupTopTen key rows).length ≤ 10 ∧
    List.Sorted countGE (groupTopTen key rows) ∧
    ∀ p ∈ groupTopTen key rows,
      (∃ r ∈ rows, key r = some p.1) ∨
      (p.1 = "Unknown" ∧ ∃ r ∈ rows, key r = some "") := by
  refine ⟨?_, ?_, ?_⟩
  · unfold groupTopTen
    simp only [List.length_map, List.length_take]
    exact Nat.min_le_left _ _
  · have hs : List.Sorted countGE (List.insertionSort countGE
        ((rows.filterMap key).dedup.map
          (fun k => (k, rows.countP (fun r => decide (key r = some k)))))) :=
      List.sorted_insertionSort countGE _
    have ht : List.Pairwise countGE ((List.insertionSort countGE
        ((rows.filterMap key).dedup.map
          (fun k => (k, rows.countP (fun r => decide (key r = some k)))))).take 10) :=
      List.Pairwise.sublist (List.take_sublist _ _) hs
    exact List.pairwise_map.mpr (ht.imp (fun h => h))
  · intro p hp
    unfold groupTopTen at hp
    simp only [List.mem_map] at hp
    obtain ⟨q, hq, rfl⟩ := hp
    have hq1 : q ∈ List.insertionSort countGE
        ((rows.filterMap key).dedup.map
          (fun k => (k, rows.countP (fun r => decide (key r = some k))))) :=
      List.mem_of_mem_take hq
    have hq2 : q ∈ (rows.filterMap key).dedup.map
        (fun k => (k, rows.countP (fun r => decide (key r = some k)))) :=
      ((List.perm_insertionSort countGE _).mem_iff).mp hq1
    simp only [List.mem_map] at hq2
    obtain ⟨k, hk, rfl⟩ := hq2
    obtain ⟨r, hr, hrk⟩ := List.mem_filterMap.mp (List.mem_dedup.mp hk)
    by_cases hke : k = ""
    · subst hke
      right
      exact ⟨rfl, r, hr, hrk⟩
    · left
      refine ⟨r, hr, ?_⟩
      rw [hrk]
      simp [orUnknown, hke]

/-- C3 counterexample: on a table whose single row has the empty string
(not null) as its country, `getVisitorStats` returns the group key
`"Unknown"` in place of the raw key — the `key || "Unknown"` substitution
does happen at the query layer, inside `getVisitorStats`, because the
empty string is falsy. -/
theorem C3_counterexample_unknown_substituted_at_query_layer :
    (getVisitorStats 0 ⟨[⟨0, none, none, none, none, some "", none, none, none,
        none, some true, some 1, 0, 0⟩], 1⟩).visitorsByCountry
      = [("Unknown", 1)] ∧
    ¬ (∀ p ∈ (getVisitorStats 0 ⟨[⟨0, none, none, none, none, some "", none, none,
          none, none, some true, some 1, 0, 0⟩], 1⟩).visitorsByCountry,
        ∃ r ∈ (⟨[⟨0, none, none, none, none, some "", none, none, none, none,
            some true, some 1, 0, 0⟩], 1⟩ : VisitorDB).visitors,
          r.country = some p.1) := by
  constructor
  · decide
  · decide

/-- C3 (amended): each group-by breakdown of `getVisitorStats` contains no
null-keyed group, has at most 10 entries sorted in descending order of
count, and returns the raw group keys except that a group whose raw key is
the empty string is returned with the key `"Unknown"` (the
`key || "Unknown"` substitution inside `getVisitorStats` fires on the
falsy empty string even though nulls are already excluded). -/
theorem C3_groupBreakdowns_amended (now : Nat) (db : VisitorDB) :
    ((getVisitorStats now db).visitorsByCountry.length ≤ 10 ∧
     List.Sorted countGE (getVisitorStats now db).visitorsByCountry ∧
     ∀ p ∈ (getVisitorStats now db).visitorsByCountry,
       (∃ r ∈ db.visitors, r.country = some p.1) ∨
       (p.1 = "Unknown" ∧ ∃ r ∈ db.visitors, r.country = some "")) ∧
    ((getVisitorStats now db).visitorsByDevice.length ≤ 10 ∧
     List.Sorted countGE (getVisitorStats now db).visitorsByDevice ∧
     ∀ p ∈ (getVisitorStats now db).visitorsByDevice,
       (∃ r ∈ db.visitors, r.device = some p.1) ∨
       (p.1 = "Unknown" ∧ ∃ r ∈ db.visitors, r.device = some "")) ∧
    ((getVisitorStats now db).visitorsByBrowser.length ≤ 10 ∧
     List.Sorted countGE (getVisitorStats now db).visitorsByBrowser ∧
     ∀ p ∈ (getVisitorStats now db).visitorsByBrowser,
       (∃ r ∈ db.visitors, r.browser = some p.1) ∨
       (p.1 = "Unknown" ∧ ∃ r ∈ db.visitors, r.browser = some "")) ∧
    ((getVisitorStats now db).visitorsByOs.length ≤ 10 ∧
     List.Sorted countGE (getVisitorStats now db).visitorsByOs ∧
     ∀ p ∈ (getVisitorStats now db).visitorsByOs,
       (∃ r ∈ db.visitors, r.os = some p.1) ∨
       (p.1 = "Unknown" ∧ ∃ r ∈ db.visitors, r.os = some "")) :=
  ⟨groupTopTen_spec (fun r => r.country) db.visitors,
   groupTopTen_spec (fun r => r.device) db.visitors,
   groupTopTen_spec (fun r => r.browser) db.visitors,
   groupTopTen_spec (fun r => r.os) db.visitors⟩

/-- C3 (amended) witness: the country breakdown of a concrete two-country
table evaluates to the amended description. -/
theorem C3_groupBreakdowns_amended_witness :
    (getVisitorStats 0 ⟨[⟨0, none, none, none, none, some "US", none, none, none,
        none, some true, some 1, 0, 0⟩], 1⟩).visitorsByCountry.length ≤ 10 ∧
    ((getVisitorStats 0 ⟨[⟨0, none, none, none, none, some "US", none, none, none,
          none, some true, some 1, 0, 0⟩], 1⟩).visitorsByCountry
        = [("US", 1)]) :=
  ⟨(C3_groupBreakdowns_amended 0 ⟨[⟨0, none, none, none, none, some "US", none,
      none, none, none, some true, some 1, 0, 0⟩], 1⟩).1.1, by decide⟩

end PortfolioStorage
